import Mathlib

/-
Verification of the reading ingestion, classification, alerting, fan-out and
aggregation core of the air-harmony-insight server.  The definitions below are
a shallow embedding of the TypeScript source:

  * `computeStatus`, `ingestStatus`, `insertSensorReading`, `generateAlert`,
    `markAlertAsRead`, `resolveAlert`, `resolveAllAlertsForBuilding` embed
    `src/services/database.ts`;
  * the `WSState` operations embed the subscription / room handling of
    `src/services/websocket.ts`;
  * `postSensorData` embeds the `POST /:buildingId/sensor-data` route handler;
  * `patchAlertRead` / `routeResolveAlert` embed the alert route handlers of
    `src/routes/api.ts`;
  * `trendCalc` embeds the trend computation of `getBuildingAnalytics`.

Numeric sensor values and timestamps are modelled as rationals, identifiers as
strings (alert ids and sensor-type ids as naturals), SQL tables as lists of
rows, and thrown exceptions as `Except` errors.
-/

namespace AirHarmony

/-- Row of the `sensor_types` table: a sensor kind with its unit and the four
ordered threshold bands (`good`, `moderate`, `poor`, `critical`). -/
structure SensorType where
  id : Nat
  type_name : String
  unit : String
  good_threshold : ℚ
  moderate_threshold : ℚ
  poor_threshold : ℚ
  critical_threshold : ℚ
deriving DecidableEq, Repr

/-- Row of the `sensors` table (the fields the core uses). -/
structure Sensor where
  id : String
  zone_id : String
  sensor_type_id : Nat
  is_active : Bool
deriving DecidableEq, Repr

/-- Row of the `zones` table (the fields the core uses). -/
structure Zone where
  id : String
  building_id : String
  name : String
deriving DecidableEq, Repr

/-- Row of the `sensor_readings` hypertable. -/
structure ReadingRow where
  time : ℚ
  sensor_id : String
  value : ℚ
  status : String
  quality_score : ℚ
deriving DecidableEq, Repr

/-- Row of the `alerts` table. -/
structure AlertRow where
  id : Nat
  time : ℚ
  zone_id : String
  sensor_id : String
  alert_type : String
  sensor_type : String
  value : ℚ
  status : String
  severity : String
  message : String
  is_resolved : Bool
  acknowledged_at : Option ℚ
  resolved_at : Option ℚ
  resolved_by : Option String
deriving DecidableEq, Repr

/-- The database state the core reads and writes. -/
structure DB where
  zones : List Zone
  sensors : List Sensor
  sensorTypes : List SensorType
  readings : List ReadingRow
  alerts : List AlertRow
deriving DecidableEq, Repr

/-- `SELECT * FROM sensors WHERE id = $1` (first row). -/
def findSensor (db : DB) (sensorId : String) : Option Sensor :=
  db.sensors.find? (fun s => s.id = sensorId)

/-- `SELECT * FROM sensor_types WHERE id = $1` (first row). -/
def findSensorType (db : DB) (typeId : Nat) : Option SensorType :=
  db.sensorTypes.find? (fun st => st.id = typeId)

/-- `SELECT * FROM zones WHERE id = $1` (first row). -/
def findZone (db : DB) (zoneId : String) : Option Zone :=
  db.zones.find? (fun z => z.id = zoneId)

/-- The thresholds query of `insertSensorReading`: join of `sensors` with
`sensor_types` on `sensor_type_id`, filtered by the sensor id. -/
def sensorThresholds (db : DB) (sensorId : String) : Option SensorType :=
  (findSensor db sensorId).bind (fun s => findSensorType db s.sensor_type_id)

/-- The status chain of `insertSensorReading` (database.ts lines 269-275):
`value >= critical → critical`, else `value >= poor → poor`, else
`value >= moderate → moderate`, else `good`.  The same chain is applied to
every sensor kind; there is no inverted branch for humidity. -/
def computeStatus (t : SensorType) (v : ℚ) : String :=
  if v ≥ t.critical_threshold then "critical"
  else if v ≥ t.poor_threshold then "poor"
  else if v ≥ t.moderate_threshold then "moderate"
  else "good"

/-- The status `insertSensorReading` derives for a reading: `good` when the
thresholds query returns no row, otherwise the `computeStatus` chain. -/
def ingestStatus (db : DB) (sensorId : String) (v : ℚ) : String :=
  match sensorThresholds db sensorId with
  | some t => computeStatus t v
  | none => "good"

/-- Numeric rank of a severity string, `good < moderate < poor < critical`. -/
def sevRank (s : String) : Nat :=
  if s = "critical" then 3
  else if s = "poor" then 2
  else if s = "moderate" then 1
  else 0

/-- The list of bands whose threshold the value meets or exceeds. -/
def bandsMet (t : SensorType) (v : ℚ) : List String :=
  (if v ≥ t.critical_threshold then ["critical"] else [])
    ++ (if v ≥ t.poor_threshold then ["poor"] else [])
    ++ (if v ≥ t.moderate_threshold then ["moderate"] else [])
    ++ (if v ≥ t.good_threshold then ["good"] else [])

/-- Follows the spec's words for non-inverted kinds: the highest band whose
threshold the value meets or exceeds (`critical > poor > moderate > good`),
defaulting to `good`. -/
def specHighestBand (t : SensorType) (v : ℚ) : String :=
  (bandsMet t v).foldl (fun acc b => if sevRank acc < sevRank b then b else acc) "good"

/-- Follows the spec's words for the inverted (humidity-like) kind: the highest
band whose threshold the value is at or below, defaulting to `good`. -/
def specInvertedClassify (t : SensorType) (v : ℚ) : String :=
  if v ≤ t.critical_threshold then "critical"
  else if v ≤ t.poor_threshold then "poor"
  else if v ≤ t.moderate_threshold then "moderate"
  else "good"

/-- The PM2.5 threshold row seeded in the repository's schema. -/
def pm25Type : SensorType :=
  { id := 1, type_name := "PM2.5", unit := "ug/m3"
    good_threshold := 12, moderate_threshold := 35.4
    poor_threshold := 55.4, critical_threshold := 150.4 }

/-- The Humidity threshold row seeded in the repository's schema: descending
thresholds, documented there as "lower is worse". -/
def humidityType : SensorType :=
  { id := 5, type_name := "Humidity", unit := "%"
    good_threshold := 40, moderate_threshold := 30
    poor_threshold := 20, critical_threshold := 10 }

/-- A minimal database holding one PM2.5 sensor and one humidity sensor. -/
def twoSensorDB : DB :=
  { zones := [{ id := "Z1", building_id := "B1", name := "Lobby" }]
    sensors := [{ id := "pm-1", zone_id := "Z1", sensor_type_id := 1, is_active := true },
                { id := "hum-1", zone_id := "Z1", sensor_type_id := 5, is_active := true }]
    sensorTypes := [pm25Type, humidityType]
    readings := []
    alerts := [] }

/-- Input supplied to `insertSensorReading` (a `SensorReading` without its
derived `status`). -/
structure ReadingInput where
  time : ℚ
  sensor_id : String
  value : ℚ
  quality_score : ℚ
deriving DecidableEq, Repr

/-- `generateAlert` (database.ts lines 455-487): joins `sensors`,
`sensor_types` and `zones` for the sensor, then inserts an alert row carrying
the sensor's zone, its kind name, the reading value and status, severity
`critical` for critical readings and `high` otherwise, opened at `now`.
Destructuring an empty join result throws, modelled as `Except.error`. -/
def generateAlert (db : DB) (sensorId : String) (value : ℚ) (status : String)
    (now : ℚ) : Except String DB :=
  match findSensor db sensorId with
  | none => Except.error "sensor info not found"
  | some s =>
    match findSensorType db s.sensor_type_id with
    | none => Except.error "sensor info not found"
    | some st =>
      match findZone db s.zone_id with
      | none => Except.error "sensor info not found"
      | some z =>
        Except.ok { db with alerts := db.alerts ++
          [{ id := db.alerts.length
             time := now
             zone_id := s.zone_id
             sensor_id := sensorId
             alert_type := "threshold_exceeded"
             sensor_type := st.type_name
             value := value
             status := status
             severity := if status = "critical" then "critical" else "high"
             message := st.type_name ++ " reading " ++ toString value ++ " is "
               ++ status ++ " in " ++ z.name
             is_resolved := false
             acknowledged_at := none
             resolved_at := none
             resolved_by := none }] }

/-- `insertSensorReading` (database.ts lines 257-297): derive the status from
the thresholds join, append the classified reading, and when the status is
`poor` or `critical` call `generateAlert`.  The reading row is persisted even
when `generateAlert` throws (no surrounding transaction); the thrown error is
reported in the second component. -/
def insertSensorReading (db : DB) (input : ReadingInput) (now : ℚ) :
    DB × Except String ReadingRow :=
  let status := ingestStatus db input.sensor_id input.value
  let row : ReadingRow :=
    { time := input.time, sensor_id := input.sensor_id, value := input.value
      status := status, quality_score := input.quality_score }
  let db1 : DB := { db with readings := db.readings ++ [row] }
  if status = "poor" ∨ status = "critical" then
    match generateAlert db1 input.sensor_id input.value status now with
    | Except.ok db2 => (db2, Except.ok row)
    | Except.error e => (db1, Except.error e)
  else (db1, Except.ok row)

/-- `markAlertAsRead` (database.ts lines 518-523):
`UPDATE alerts SET acknowledged_at = NOW() WHERE id = $1` — the timestamp is
written unconditionally, whether or not the alert was already acknowledged. -/
def markAlertAsRead (db : DB) (alertId : Nat) (now : ℚ) : DB :=
  { db with alerts := db.alerts.map (fun a =>
      if a.id = alertId then { a with acknowledged_at := some now } else a) }

/-- `resolveAlert` (database.ts lines 525-530): sets `is_resolved`,
`resolved_at = NOW()` and `resolved_by` unconditionally for the alert id. -/
def resolveAlert (db : DB) (alertId : Nat) (userId : String) (now : ℚ) : DB :=
  { db with alerts := db.alerts.map (fun a =>
      if a.id = alertId then
        { a with is_resolved := true, resolved_at := some now
                 resolved_by := some userId }
      else a) }

/-- The join condition of `resolveAllAlertsForBuilding`: the alert's zone is a
zone of the given building. -/
def zoneInBuilding (db : DB) (zoneId buildingId : String) : Bool :=
  db.zones.any (fun z => z.id = zoneId && z.building_id = buildingId)

/-- `resolveAllAlertsForBuilding` (database.ts lines 532-547): one batch
`UPDATE ... FROM zones WHERE alerts.zone_id = zones.id AND zones.building_id =
$1 AND alerts.is_resolved = false RETURNING alerts.id`; the returned count is
the number of updated rows. -/
def resolveAllAlertsForBuilding (db : DB) (buildingId userId : String)
    (now : ℚ) : DB × Nat :=
  let hit := fun (a : AlertRow) => !a.is_resolved && zoneInBuilding db a.zone_id buildingId
  ({ db with alerts := db.alerts.map (fun a =>
       if hit a then
         { a with is_resolved := true, resolved_at := some now
                  resolved_by := some userId }
       else a) },
   (db.alerts.filter hit).length)

/-- `PATCH /alerts/:alertId/read` (api.ts lines 47-105): 404 `ALERT_NOT_FOUND`
when no alert row has the id, otherwise `markAlertAsRead`. -/
def patchAlertRead (db : DB) (alertId : Nat) (now : ℚ) : Except String DB :=
  if db.alerts.any (fun a => a.id = alertId) then
    Except.ok (markAlertAsRead db alertId now)
  else Except.error "ALERT_NOT_FOUND"

/-- `POST /alerts/:alertId/resolve` (api.ts lines 111-169): 404
`ALERT_NOT_FOUND` when no alert row has the id, otherwise `resolveAlert`. -/
def routeResolveAlert (db : DB) (alertId : Nat) (userId : String) (now : ℚ) :
    Except String DB :=
  if db.alerts.any (fun a => a.id = alertId) then
    Except.ok (resolveAlert db alertId userId now)
  else Except.error "ALERT_NOT_FOUND"

/-- Trend direction reported by `getBuildingAnalytics`. -/
inductive TrendDirection where
  | up
  | down
  | stable
deriving DecidableEq, Repr

/-- `Math.round(x * 100) / 100` on rationals (JS `Math.round` is
round-half-up). -/
def round2 (x : ℚ) : ℚ := ((⌊x * 100 + 1 / 2⌋ : ℤ) : ℚ) / 100

/-- The trend computation of `getBuildingAnalytics` (database.ts lines
747-778).  `prevMean` is the previous-period `AVG` (`none` when the period has
no readings, which `parseFloat(x || 0)` turns into `0`).  The percentage and
direction are only computed when the previous average is strictly positive;
the reported change is rounded to two decimals, the direction is taken from
the unrounded percentage. -/
def trendCalc (currentAvg : ℚ) (prevMean : Option ℚ) : ℚ × TrendDirection :=
  let previousAvg := prevMean.getD 0
  let trendPercentage :=
    if previousAvg > 0 then (currentAvg - previousAvg) / previousAvg * 100 else 0
  let trendDirection : TrendDirection :=
    if previousAvg > 0 then
      if |trendPercentage| < 2 then TrendDirection.stable
      else if trendPercentage > 0 then TrendDirection.up
      else TrendDirection.down
    else TrendDirection.stable
  (round2 trendPercentage, trendDirection)

/-- The `currentAvg` of `getBuildingAnalytics`: the mean of the per-bucket
means when any bucket exists, else `0`. -/
def currentMeanOfBuckets (buckets : List ℚ) : ℚ :=
  if buckets.length > 0 then buckets.sum / buckets.length else 0

/-- Follows the claim's words for `trend`: `pct_change =
(current - previous) / previous * 100`, direction `stable` when
`|pct_change| < 2` and `up` / `down` by sign otherwise; when the previous mean
is zero or undefined, `pct_change = 0` and direction `stable`. -/
def specTrendClaim (c : ℚ) (prevMean : Option ℚ) : ℚ × TrendDirection :=
  match prevMean with
  | none => (0, TrendDirection.stable)
  | some p =>
    if p = 0 then (0, TrendDirection.stable)
    else
      let pct := (c - p) / p * 100
      (pct, if |pct| < 2 then TrendDirection.stable
            else if pct > 0 then TrendDirection.up
            else TrendDirection.down)

/-- Lookup in a JS `Map` modelled as an association list (keys unique by
construction of the operations below). -/
def mapGet {α : Type} (m : List (String × α)) (k : String) : Option α :=
  (m.find? (fun p => p.1 = k)).map (fun p => p.2)

/-- `Map.set`: replace the value when the key is present, else append. -/
def mapSet {α : Type} (m : List (String × α)) (k : String) (v : α) :
    List (String × α) :=
  if (m.find? (fun p => p.1 = k)).isSome then
    m.map (fun p => if p.1 = k then (k, v) else p)
  else m ++ [(k, v)]

/-- `Map.delete`. -/
def mapDelete {α : Type} (m : List (String × α)) (k : String) :
    List (String × α) :=
  m.filter (fun p => p.1 ≠ k)

/-- `Set.add`: a JS `Set` modelled as a duplicate-free list. -/
def setAdd (s : List String) (x : String) : List String :=
  if x ∈ s then s else s ++ [x]

/-- `Set.delete`. -/
def setErase (s : List String) (x : String) : List String :=
  s.filter (fun y => y ≠ x)

/-- The per-connection state of `AuthenticatedSocket` that the registry
mutates: the current `buildingId` and the set of subscribed zones. -/
structure ClientState where
  buildingId : Option String
  subscribedZones : List String
deriving DecidableEq, Repr

/-- The mutable state of `WebSocketService`: `authenticatedClients`,
`buildingSubscriptions`, `zoneSubscriptions`, and the socket.io room
membership that `socket.join` / `socket.leave` maintain and the broadcast
methods deliver to. -/
structure WSState where
  clients : List (String × ClientState)
  buildingSubs : List (String × List String)
  zoneSubs : List (String × List String)
  rooms : List (String × List String)
deriving DecidableEq, Repr

/-- The state of a freshly constructed `WebSocketService`. -/
def initialWSState : WSState :=
  { clients := [], buildingSubs := [], zoneSubs := [], rooms := [] }

/-- `socket.join(room)`. -/
def joinRoom (st : WSState) (room conn : String) : WSState :=
  { st with rooms := mapSet st.rooms room (setAdd ((mapGet st.rooms room).getD []) conn) }

/-- `socket.leave(room)` (socket.io drops a room once its last member
leaves). -/
def leaveRoom (st : WSState) (room conn : String) : WSState :=
  { st with rooms :=
      match mapGet st.rooms room with
      | none => st.rooms
      | some members =>
        let remaining := setErase members conn
        if remaining = [] then mapDelete st.rooms room
        else mapSet st.rooms room remaining }

/-- Removing a connection from one topic entry of a subscription map, deleting
the entry when it becomes empty — the pattern of `handleZoneUnsubscription`
(websocket.ts lines 250-257) and `handleDisconnection` (lines 270-292). -/
def removeFromTopic (m : List (String × List String)) (k conn : String) :
    List (String × List String) :=
  match mapGet m k with
  | none => m
  | some subs =>
    let remaining := setErase subs conn
    if remaining = [] then mapDelete m k
    else mapSet m k remaining

/-- Successful `handleAuthentication`: store the client with no building and
no subscribed zones. -/
def handleAuthentication (st : WSState) (conn : String) : WSState :=
  { st with clients := mapSet st.clients conn { buildingId := none, subscribedZones := [] } }

/-- `handleBuildingSubscription` (websocket.ts lines 166-199): for an
authenticated client with a non-empty building id, join the building room,
set the client's `buildingId`, and add the connection to the building's
subscription set (creating the entry when absent).  Nothing is removed from
any previously subscribed building's set. -/
def handleBuildingSubscription (st : WSState) (conn buildingId : String) : WSState :=
  match mapGet st.clients conn with
  | none => st
  | some client =>
    if buildingId = "" then st
    else
      let st1 := joinRoom st ("building:" ++ buildingId) conn
      let newClients := mapSet st1.clients conn { client with buildingId := some buildingId }
      let st2 := { st1 with clients := newClients }
      let newSubs := mapSet st2.buildingSubs buildingId
        (setAdd ((mapGet st2.buildingSubs buildingId).getD []) conn)
      { st2 with buildingSubs := newSubs }

/-- `handleZoneSubscription` (websocket.ts lines 201-229). -/
def handleZoneSubscription (st : WSState) (conn zoneId : String) : WSState :=
  match mapGet st.clients conn with
  | none => st
  | some client =>
    if zoneId = "" then st
    else
      let st1 := joinRoom st ("zone:" ++ zoneId) conn
      let newClients := mapSet st1.clients conn
        { client with subscribedZones := setAdd client.subscribedZones zoneId }
      let st2 := { st1 with clients := newClients }
      let newSubs := mapSet st2.zoneSubs zoneId
        (setAdd ((mapGet st2.zoneSubs zoneId).getD []) conn)
      { st2 with zoneSubs := newSubs }

/-- `handleZoneUnsubscription` (websocket.ts lines 231-265). -/
def handleZoneUnsubscription (st : WSState) (conn zoneId : String) : WSState :=
  match mapGet st.clients conn with
  | none => st
  | some client =>
    if zoneId = "" then st
    else
      let st1 := leaveRoom st ("zone:" ++ zoneId) conn
      let newClients := mapSet st1.clients conn
        { client with subscribedZones := setErase client.subscribedZones zoneId }
      let st2 := { st1 with clients := newClients }
      { st2 with zoneSubs := removeFromTopic st2.zoneSubs zoneId conn }

/-- `handleDisconnection` (websocket.ts lines 267-303): for an authenticated
client, remove the connection from the set of its current `buildingId` (only
that one), from the set of each of its subscribed zones, drop empty entries,
and delete the client record.  socket.io removes the socket from every room. -/
def handleDisconnection (st : WSState) (conn : String) : WSState :=
  match mapGet st.clients conn with
  | none => st
  | some client =>
    let bSubs :=
      match client.buildingId with
      | some b => removeFromTopic st.buildingSubs b conn
      | none => st.buildingSubs
    let zSubs := client.subscribedZones.foldl
      (fun m z => removeFromTopic m z conn) st.zoneSubs
    { clients := mapDelete st.clients conn
      buildingSubs := bSubs
      zoneSubs := zSubs
      rooms := (st.rooms.map (fun p => (p.1, setErase p.2 conn))).filter
        (fun p => p.2 ≠ []) }

/-- The registry operations a connection can trigger. -/
inductive WSOp where
  | auth (conn : String)
  | subBuilding (conn buildingId : String)
  | subZone (conn zoneId : String)
  | unsubZone (conn zoneId : String)
  | disconnect (conn : String)
deriving DecidableEq, Repr

/-- Dispatch of one registry operation. -/
def applyOp (st : WSState) : WSOp → WSState
  | WSOp.auth c => handleAuthentication st c
  | WSOp.subBuilding c b => handleBuildingSubscription st c b
  | WSOp.subZone c z => handleZoneSubscription st c z
  | WSOp.unsubZone c z => handleZoneUnsubscription st c z
  | WSOp.disconnect c => handleDisconnection st c

/-- Run a sequence of registry operations from the initial state. -/
def runOps (ops : List WSOp) : WSState :=
  ops.foldl applyOp initialWSState

/-- The member set of `buildingSubscriptions` for a building (empty when the
entry is absent). -/
def connectionsForBuilding (st : WSState) (buildingId : String) : List String :=
  (mapGet st.buildingSubs buildingId).getD []

/-- The member set of `zoneSubscriptions` for a zone. -/
def connectionsForZone (st : WSState) (zoneId : String) : List String :=
  (mapGet st.zoneSubs zoneId).getD []

/-- Every entry of a topic map holds a non-empty subscriber set. -/
def topicMapWF (m : List (String × List String)) : Prop :=
  ∀ p ∈ m, p.2 ≠ []

instance (m : List (String × List String)) : Decidable (topicMapWF m) :=
  List.decidableBAll _ m

/-- The Subscription Registry invariant of the claim: both subscription maps
retain no empty entry. -/
def registryWF (st : WSState) : Prop :=
  topicMapWF st.buildingSubs ∧ topicMapWF st.zoneSubs

instance (st : WSState) : Decidable (registryWF st) :=
  instDecidableAnd

/-- The readings of a zone's active sensors of one sensor type (the join of
`getLatestReadings` restricted to one `sensor_type_id`). -/
def readingsOfTypeInZone (db : DB) (zoneId : String) (typeId : Nat) :
    List ReadingRow :=
  db.readings.filter (fun r =>
    match findSensor db r.sensor_id with
    | some s => s.zone_id = zoneId && s.is_active && s.sensor_type_id = typeId
    | none => false)

/-- The latest row of a list of readings (`ORDER BY time DESC`, first row). -/
def latestOf (rows : List ReadingRow) : Option ReadingRow :=
  rows.foldl (fun acc r =>
    match acc with
    | none => some r
    | some m => if r.time > m.time then some r else some m) none

/-- `getLatestReadings` (database.ts lines 299-334): `DISTINCT ON
(sensor_type_id)` over the zone's active sensors ordered by time descending —
one latest reading per sensor type, paired with its type row. -/
def getLatestReadings (db : DB) (zoneId : String) :
    List (ReadingRow × SensorType) :=
  db.sensorTypes.filterMap (fun st =>
    (latestOf (readingsOfTypeInZone db zoneId st.id)).map (fun r => (r, st)))

/-- The emission log of a request: pairs of (room, event name) passed to
`io.to(room).emit(event, ...)`. -/
def Emits := List (String × String)

/-- `POST /:buildingId/sensor-data` (route handler lines 184-279): validate the
sensor and its zone's building, insert the classified reading (which may open
an alert), then broadcast the zone's latest reading for this sensor as a
`sensor_reading` event to the zone room.  No other event is emitted; in
particular `broadcastNewAlert` is never invoked.  Returns the new database
state, the emitted (room, event) pairs, and the response (`Except.ok` carries
the returned reading status). -/
def postSensorData (db : DB) (buildingId : String) (body : ReadingInput)
    (now : ℚ) : DB × List (String × String) × Except String String :=
  match findSensor db body.sensor_id with
  | none => (db, [], Except.error "SENSOR_NOT_FOUND")
  | some sensor =>
    match findZone db sensor.zone_id with
    | none => (db, [], Except.error "SENSOR_ACCESS_DENIED")
    | some zone =>
      if zone.building_id ≠ buildingId then
        (db, [], Except.error "SENSOR_ACCESS_DENIED")
      else
        let out := insertSensorReading db body now
        match out.2 with
        | Except.error _ => (out.1, [], Except.error "SENSOR_DATA_ERROR")
        | Except.ok row =>
          let emits :=
            match (getLatestReadings out.1 zone.id).find?
                (fun pr => pr.1.sensor_id = body.sensor_id) with
            | some _ => [("zone:" ++ zone.id, "sensor_reading")]
            | none => []
          (out.1, emits, Except.ok row.status)

/-- `broadcastNewAlert` (websocket.ts lines 334-350): one `alert_new` emit to
the building room and one to the zone room. -/
def broadcastNewAlertEmits (buildingId zoneId : String) :
    List (String × String) :=
  [("building:" ++ buildingId, "alert_new"), ("zone:" ++ zoneId, "alert_new")]

/-- The members of a socket.io room. -/
def roomMembers (st : WSState) (room : String) : List String :=
  (mapGet st.rooms room).getD []

/-- How many copies of an event a connection receives from an emission log:
one per emit whose room the connection is a member of. -/
def deliveredCount (st : WSState) (emits : List (String × String))
    (conn eventName : String) : Nat :=
  (emits.filter (fun e => e.2 = eventName && (roomMembers st e.1).contains conn)).length

/-- An integer-threshold PM2.5-like sensor type, for concrete evaluations. -/
def pmIntType : SensorType :=
  { id := 1, type_name := "PM2.5", unit := "ug/m3"
    good_threshold := 12, moderate_threshold := 35
    poor_threshold := 55, critical_threshold := 150 }

/-- A database with one building/zone/sensor for concrete evaluations. -/
def oneSensorDB : DB :=
  { zones := [{ id := "Z", building_id := "B", name := "Zone Z" }]
    sensors := [{ id := "S", zone_id := "Z", sensor_type_id := 1, is_active := true }]
    sensorTypes := [pmIntType]
    readings := []
    alerts := [] }

/-- Registry state with a zone-Z subscriber, a building-B subscriber and an
unsubscribed third connection. -/
def threeConnWS : WSState :=
  runOps [WSOp.auth "ca", WSOp.subZone "ca" "Z",
          WSOp.auth "cb", WSOp.subBuilding "cb" "B",
          WSOp.auth "cc"]

/-- A database with three alerts: alert 0 unresolved in building B, alert 1
already resolved in building B, alert 2 unresolved in another building. -/
def threeAlertDB : DB :=
  { zones := [{ id := "Z", building_id := "B", name := "Zone Z" },
              { id := "Y", building_id := "C", name := "Zone Y" }]
    sensors := [{ id := "S", zone_id := "Z", sensor_type_id := 1, is_active := true }]
    sensorTypes := [pmIntType]
    readings := []
    alerts :=
      [{ id := 0, time := 1, zone_id := "Z", sensor_id := "S"
         alert_type := "threshold_exceeded", sensor_type := "PM2.5"
         value := 60, status := "poor", severity := "high"
         message := "m0", is_resolved := false, acknowledged_at := none
         resolved_at := none, resolved_by := none },
       { id := 1, time := 2, zone_id := "Z", sensor_id := "S"
         alert_type := "threshold_exceeded", sensor_type := "PM2.5"
         value := 200, status := "critical", severity := "critical"
         message := "m1", is_resolved := true, acknowledged_at := some 3
         resolved_at := some 3, resolved_by := some "op"
       },
       { id := 2, time := 4, zone_id := "Y", sensor_id := "S"
         alert_type := "threshold_exceeded", sensor_type := "PM2.5"
         value := 70, status := "poor", severity := "high"
         message := "m2", is_resolved := false, acknowledged_at := none
         resolved_at := none, resolved_by := none }] }

/-- Registry state with one connection subscribed to both zone Z and its
owning building B. -/
def dualSubWS : WSState :=
  runOps [WSOp.auth "cd", WSOp.subZone "cd" "Z", WSOp.subBuilding "cd" "B"]

instance {ε α : Type} [DecidableEq ε] [DecidableEq α] : DecidableEq (Except ε α) := fun x y =>
  match x, y with
  | Except.ok a, Except.ok b =>
    if h : a = b then isTrue (by rw [h]) else isFalse (by intro hc; cases hc; exact h rfl)
  | Except.error a, Except.error b =>
    if h : a = b then isTrue (by rw [h]) else isFalse (by intro hc; cases hc; exact h rfl)
  | Except.ok _, Except.error _ => isFalse (by intro hc; cases hc)
  | Except.error _, Except.ok _ => isFalse (by intro hc; cases hc)

/-- The ingestion status chain picks exactly the highest band whose threshold
the value meets or exceeds, for every threshold row. -/
theorem computeStatus_eq_highestBand (t : SensorType) (v : ℚ) :
    computeStatus t v = specHighestBand t v := by
  unfold computeStatus specHighestBand bandsMet
  split_ifs <;> simp [sevRank]

/-- C1: the claim says humidity severity is the highest band whose threshold
the value is at or below (monotonically non-increasing in the value).  The
code applies the ascending `>=` chain to the descending humidity catalog row
instead: value 50 is classified `critical` where the inverted rule gives
`good`, and the severity strictly increases from value 5 to value 50. -/
theorem humidity_ingest_not_inverted :
    ingestStatus twoSensorDB "hum-1" 50 = "critical"
  ∧ specInvertedClassify humidityType 50 = "good"
  ∧ ingestStatus twoSensorDB "hum-1" 5 = "good"
  ∧ sevRank (ingestStatus twoSensorDB "hum-1" 5) < sevRank (ingestStatus twoSensorDB "hum-1" 50)
  ∧ sensorThresholds twoSensorDB "hum-1" = some humidityType :=
  ⟨by decide, by decide, by decide, by decide, by decide⟩

/-- C2: for every threshold row the ingestion status is the highest band whose
threshold the value meets or exceeds (defaulting to `good`), the status a
stored reading receives agrees with that rule whenever the sensor has a
catalog row, boundaries are inclusive to the higher severity, and the
PM2.5 examples classify as the claim states. -/
theorem nonInverted_classification_highest_band :
    (∀ t v, computeStatus t v = specHighestBand t v)
  ∧ (∀ db sensorId v t, sensorThresholds db sensorId = some t →
      ingestStatus db sensorId v = specHighestBand t v)
  ∧ computeStatus pm25Type 40 = "moderate"
  ∧ computeStatus pm25Type 60 = "poor"
  ∧ computeStatus pm25Type 200 = "critical"
  ∧ computeStatus pm25Type 35.4 = "moderate"
  ∧ computeStatus pm25Type 55.4 = "poor"
  ∧ computeStatus pm25Type 150.4 = "critical"
  ∧ computeStatus pm25Type 12 = "good" := by
  refine ⟨computeStatus_eq_highestBand, ?_, ?_, ?_, ?_, ?_, ?_, ?_, ?_⟩
  · intro db sensorId v t ht
    unfold ingestStatus
    rw [ht]
    exact computeStatus_eq_highestBand t v
  all_goals norm_num [computeStatus, pm25Type]

/-- C2 witness: the second conjunct applied to a concrete database. -/
theorem nonInverted_classification_highest_band_witness :
    ingestStatus oneSensorDB "S" 200 = specHighestBand pmIntType 200 :=
  nonInverted_classification_highest_band.2.1 oneSensorDB "S" 200 pmIntType (by decide)

/-- `generateAlert` on a sensor whose joins all resolve: the inserted alert
row, spelled out. -/
theorem generateAlert_eq (db : DB) (sensorId : String) (value : ℚ) (status : String) (now : ℚ)
    (s : Sensor) (st : SensorType) (z : Zone)
    (hs : findSensor db sensorId = some s)
    (hst : findSensorType db s.sensor_type_id = some st)
    (hz : findZone db s.zone_id = some z) :
    generateAlert db sensorId value status now = Except.ok { db with alerts := db.alerts ++
      [{ id := db.alerts.length
         time := now
         zone_id := s.zone_id
         sensor_id := sensorId
         alert_type := "threshold_exceeded"
         sensor_type := st.type_name
         value := value
         status := status
         severity := if status = "critical" then "critical" else "high"
         message := st.type_name ++ " reading " ++ toString value ++ " is "
           ++ status ++ " in " ++ z.name
         is_resolved := false
         acknowledged_at := none
         resolved_at := none
         resolved_by := none }] } := by
  unfold generateAlert
  simp only [hs, hst, hz]

/-- C3: ingesting a reading creates an alert record exactly when the derived
severity is `poor` or `critical`; for `good` or `moderate` the alerts table is
unchanged; the created alert is bound to the reading's sensor, the sensor's
zone, its kind name and the reading's value. -/
theorem alert_created_iff_poor_or_critical
    (db : DB) (input : ReadingInput) (now : ℚ)
    (s : Sensor) (st : SensorType) (z : Zone)
    (hs : findSensor db input.sensor_id = some s)
    (hst : findSensorType db s.sensor_type_id = some st)
    (hz : findZone db s.zone_id = some z) :
    ((ingestStatus db input.sensor_id input.value = "poor"
        ∨ ingestStatus db input.sensor_id input.value = "critical") →
      (insertSensorReading db input now).1.alerts = db.alerts ++
        [{ id := db.alerts.length
           time := now
           zone_id := s.zone_id
           sensor_id := input.sensor_id
           alert_type := "threshold_exceeded"
           sensor_type := st.type_name
           value := input.value
           status := ingestStatus db input.sensor_id input.value
           severity := if ingestStatus db input.sensor_id input.value = "critical"
             then "critical" else "high"
           message := st.type_name ++ " reading " ++ toString input.value ++ " is "
             ++ ingestStatus db input.sensor_id input.value ++ " in " ++ z.name
           is_resolved := false
           acknowledged_at := none
           resolved_at := none
           resolved_by := none }])
  ∧ (¬(ingestStatus db input.sensor_id input.value = "poor"
        ∨ ingestStatus db input.sensor_id input.value = "critical") →
      (insertSensorReading db input now).1.alerts = db.alerts) := by
  constructor
  · intro hpc
    unfold insertSensorReading
    rw [if_pos hpc]
    have hs1 : findSensor { db with readings := db.readings ++
        [{ time := input.time, sensor_id := input.sensor_id, value := input.value
           status := ingestStatus db input.sensor_id input.value
           quality_score := input.quality_score }] } input.sensor_id = some s := hs
    rw [generateAlert_eq _ _ _ _ _ s st z hs1 hst hz]
  · intro hpc
    unfold insertSensorReading
    rw [if_neg hpc]

/-- C3 witness: a critical reading on a concrete database appends exactly the
bound alert. -/
theorem alert_created_iff_poor_or_critical_witness :
    (insertSensorReading oneSensorDB
        { time := 100, sensor_id := "S", value := 200, quality_score := 100 } 100).1.alerts
      = oneSensorDB.alerts ++
        [{ id := oneSensorDB.alerts.length
           time := 100
           zone_id := "Z"
           sensor_id := "S"
           alert_type := "threshold_exceeded"
           sensor_type := "PM2.5"
           value := 200
           status := ingestStatus oneSensorDB "S" 200
           severity := if ingestStatus oneSensorDB "S" 200 = "critical"
             then "critical" else "high"
           message := "PM2.5" ++ " reading " ++ toString (200 : ℚ) ++ " is "
             ++ ingestStatus oneSensorDB "S" 200 ++ " in " ++ "Zone Z"
           is_resolved := false
           acknowledged_at := none
           resolved_at := none
           resolved_by := none }] :=
  (alert_created_iff_poor_or_critical oneSensorDB
      { time := 100, sensor_id := "S", value := 200, quality_score := 100 } 100
      { id := "S", zone_id := "Z", sensor_type_id := 1, is_active := true }
      pmIntType { id := "Z", building_id := "B", name := "Zone Z" }
      (by decide) (by decide) (by decide)).1 (by decide)

/-- C6: `resolveAll` returns the number of alerts that are unresolved at call
time and belong to the building; it resolves exactly those (stamping the
resolver and time) and leaves every other alert — already-resolved ones and
alerts of other buildings — unchanged; afterwards no alert of the building is
unresolved. -/
theorem resolveAll_resolves_exactly (db : DB) (buildingId userId : String) (now : ℚ) :
    (resolveAllAlertsForBuilding db buildingId userId now).2
      = (db.alerts.filter
          (fun a => !a.is_resolved && zoneInBuilding db a.zone_id buildingId)).length
  ∧ (resolveAllAlertsForBuilding db buildingId userId now).1.alerts.length = db.alerts.length
  ∧ (∀ i (h : i < db.alerts.length)
        (h2 : i < (resolveAllAlertsForBuilding db buildingId userId now).1.alerts.length),
      (resolveAllAlertsForBuilding db buildingId userId now).1.alerts.get ⟨i, h2⟩ =
        (if (!(db.alerts.get ⟨i, h⟩).is_resolved
              && zoneInBuilding db (db.alerts.get ⟨i, h⟩).zone_id buildingId) = true
         then { db.alerts.get ⟨i, h⟩ with
                  is_resolved := true, resolved_at := some now, resolved_by := some userId }
         else db.alerts.get ⟨i, h⟩))
  ∧ (∀ a ∈ (resolveAllAlertsForBuilding db buildingId userId now).1.alerts,
      zoneInBuilding db a.zone_id buildingId = true → a.is_resolved = true) := by
  refine ⟨rfl, by simp [resolveAllAlertsForBuilding], ?_, ?_⟩
  · intro i h h2
    simp [resolveAllAlertsForBuilding, List.getElem_map]
  · intro a ha hz
    unfold resolveAllAlertsForBuilding at ha
    simp only [List.mem_map] at ha
    obtain ⟨b, hb, hfb⟩ := ha
    by_cases hhit : (!b.is_resolved && zoneInBuilding db b.zone_id buildingId) = true
    · rw [if_pos hhit] at hfb
      rw [← hfb]
    · rw [if_neg hhit] at hfb
      subst hfb
      simp only [Bool.and_eq_true, Bool.not_eq_true'] at hhit
      rcases Bool.eq_false_or_eq_true b.is_resolved with hr | hr
      · exact hr
      · exact absurd ⟨hr, hz⟩ hhit

/-- C6 witness: the count and the pointwise characterisation on a concrete
database (one unresolved alert in the building, one resolved, one outside). -/
theorem resolveAll_resolves_exactly_witness :
    (resolveAllAlertsForBuilding threeAlertDB "B" "op" 9).2
      = (threeAlertDB.alerts.filter
          (fun a => !a.is_resolved && zoneInBuilding threeAlertDB a.zone_id "B")).length
  ∧ (resolveAllAlertsForBuilding threeAlertDB "B" "op" 9).1.alerts.get ⟨0, by decide⟩ =
      (if (!(threeAlertDB.alerts.get ⟨0, by decide⟩).is_resolved
            && zoneInBuilding threeAlertDB (threeAlertDB.alerts.get ⟨0, by decide⟩).zone_id "B") = true
       then { threeAlertDB.alerts.get ⟨0, by decide⟩ with
                is_resolved := true, resolved_at := some 9, resolved_by := some "op" }
       else threeAlertDB.alerts.get ⟨0, by decide⟩) :=
  ⟨(resolveAll_resolves_exactly threeAlertDB "B" "op" 9).1,
   (resolveAll_resolves_exactly threeAlertDB "B" "op" 9).2.2.1 0 (by decide) (by decide)⟩

/-- C7 counterexample: resolving the same alert a second time at a later clock
time does not yield the same terminal state as resolving it once — the second
call overwrites `resolved_at` with its own timestamp. -/
theorem resolve_twice_updates_resolved_at :
    resolveAlert (resolveAlert threeAlertDB 0 "u" 1) 0 "u" 2 ≠ resolveAlert threeAlertDB 0 "u" 1
  ∧ (resolveAlert (resolveAlert threeAlertDB 0 "u" 1) 0 "u" 2).alerts.map (fun a => a.resolved_at)
      = [some 2, some 3, none]
  ∧ (resolveAlert threeAlertDB 0 "u" 1).alerts.map (fun a => a.resolved_at)
      = [some 1, some 3, none] :=
  ⟨by decide, by decide, by decide⟩

/-- C7 as amended: `resolve` is idempotent up to last-writer-wins on
`resolved_at` / `resolved_by` — a second call yields the state of a single
call with the second call's actor and timestamp (identical state when they
coincide), and the route accepts the second call without error for an
existing alert. -/
theorem resolve_last_write_wins (db : DB) (alertId : Nat) (u1 u2 : String) (t1 t2 : ℚ) :
    resolveAlert (resolveAlert db alertId u1 t1) alertId u2 t2 = resolveAlert db alertId u2 t2
  ∧ resolveAlert (resolveAlert db alertId u2 t2) alertId u2 t2 = resolveAlert db alertId u2 t2
  ∧ ((db.alerts.any (fun a => a.id = alertId)) = true →
      routeResolveAlert db alertId u1 t1 = Except.ok (resolveAlert db alertId u1 t1)
      ∧ routeResolveAlert (resolveAlert db alertId u1 t1) alertId u2 t2
          = Except.ok (resolveAlert (resolveAlert db alertId u1 t1) alertId u2 t2)) := by
  have key : ∀ (ua ub : String) (ta tb : ℚ),
      resolveAlert (resolveAlert db alertId ua ta) alertId ub tb
        = resolveAlert db alertId ub tb := by
    intro ua ub ta tb
    unfold resolveAlert
    simp only [List.map_map]
    congr 1
    apply List.map_congr_left
    intro a _
    by_cases h : a.id = alertId <;> simp [h, Function.comp]
  have anyPres : ∀ (ua : String) (ta : ℚ),
      (resolveAlert db alertId ua ta).alerts.any (fun a => a.id = alertId)
        = db.alerts.any (fun a => a.id = alertId) := by
    intro ua ta
    unfold resolveAlert
    simp only [List.any_map]
    congr 1
    funext a
    by_cases h : a.id = alertId <;> simp [h, Function.comp]
  refine ⟨key u1 u2 t1 t2, key u2 u2 t2 t2, ?_⟩
  intro hany
  constructor
  · unfold routeResolveAlert
    rw [if_pos hany]
  · unfold routeResolveAlert
    rw [if_pos ((anyPres u1 t1).trans hany)]

/-- C7 witness: both resolve calls succeed through the route on a concrete
database. -/
theorem resolve_last_write_wins_witness :
    routeResolveAlert threeAlertDB 0 "u1" 1 = Except.ok (resolveAlert threeAlertDB 0 "u1" 1)
  ∧ routeResolveAlert (resolveAlert threeAlertDB 0 "u1" 1) 0 "u2" 2
      = Except.ok (resolveAlert (resolveAlert threeAlertDB 0 "u1" 1) 0 "u2" 2) :=
  (resolve_last_write_wins threeAlertDB 0 "u1" "u2" 1 2).2.2 (by decide)

/-- C8 counterexample: acknowledging an already-acknowledged alert is not a
no-op — `acknowledged_at` jumps from 3 to the second call's time 7, and the
route reports success. -/
theorem acknowledge_overwrites_existing :
    threeAlertDB.alerts.map (fun a => a.acknowledged_at) = [none, some 3, none]
  ∧ (markAlertAsRead threeAlertDB 1 7).alerts.map (fun a => a.acknowledged_at)
      = [none, some 7, none]
  ∧ patchAlertRead threeAlertDB 1 7 = Except.ok (markAlertAsRead threeAlertDB 1 7) :=
  ⟨by decide, by decide, by decide⟩

/-- C8 as amended: the read route fails with `ALERT_NOT_FOUND` when the id
does not exist; otherwise it sets `acknowledged_at` to the call time
unconditionally — overwriting any earlier acknowledgment — and leaves every
other alert unchanged. -/
theorem acknowledge_unconditional_and_notfound (db : DB) (alertId : Nat) (now : ℚ) :
    ((db.alerts.any (fun a => a.id = alertId)) = false →
      patchAlertRead db alertId now = Except.error "ALERT_NOT_FOUND")
  ∧ ((db.alerts.any (fun a => a.id = alertId)) = true →
      patchAlertRead db alertId now = Except.ok (markAlertAsRead db alertId now))
  ∧ (∀ i (h : i < db.alerts.length) (h2 : i < (markAlertAsRead db alertId now).alerts.length),
      (markAlertAsRead db alertId now).alerts.get ⟨i, h2⟩ =
        (if (db.alerts.get ⟨i, h⟩).id = alertId
         then { db.alerts.get ⟨i, h⟩ with acknowledged_at := some now }
         else db.alerts.get ⟨i, h⟩)) := by
  refine ⟨?_, ?_, ?_⟩
  · intro hnone
    unfold patchAlertRead
    rw [if_neg (by rw [hnone]; exact Bool.false_ne_true)]
  · intro hsome
    unfold patchAlertRead
    rw [if_pos hsome]
  · intro i h h2
    simp [markAlertAsRead, List.getElem_map]

/-- C8 witness: the not-found error, the success case and the pointwise update
on a concrete database. -/
theorem acknowledge_unconditional_witness :
    patchAlertRead threeAlertDB 99 7 = Except.error "ALERT_NOT_FOUND"
  ∧ patchAlertRead threeAlertDB 1 7 = Except.ok (markAlertAsRead threeAlertDB 1 7)
  ∧ (markAlertAsRead threeAlertDB 1 7).alerts.get ⟨1, by decide⟩ =
      (if (threeAlertDB.alerts.get ⟨1, by decide⟩).id = 1
       then { threeAlertDB.alerts.get ⟨1, by decide⟩ with acknowledged_at := some 7 }
       else threeAlertDB.alerts.get ⟨1, by decide⟩) :=
  ⟨(acknowledge_unconditional_and_notfound threeAlertDB 99 7).1 (by decide),
   (acknowledge_unconditional_and_notfound threeAlertDB 1 7).2.1 (by decide),
   (acknowledge_unconditional_and_notfound threeAlertDB 1 7).2.2 1 (by decide) (by decide)⟩

/-- C9 counterexample: for a negative previous mean the code returns
`(0, stable)` while the claimed formula demands `(-200, down)` — the guard is
`previous_mean > 0`, not `previous_mean ≠ 0`. -/
theorem trend_negative_previous_not_claim_shape :
    trendCalc 10 (some (-10)) = (0, TrendDirection.stable)
  ∧ specTrendClaim 10 (some (-10)) = (-200, TrendDirection.down)
  ∧ trendCalc 10 (some (-10)) ≠ specTrendClaim 10 (some (-10)) := by
  refine ⟨by norm_num [trendCalc, round2], by norm_num [specTrendClaim], ?_⟩
  norm_num [trendCalc, specTrendClaim, round2]

/-- C9 as amended: the trend is `(0, stable)` whenever the previous mean is
zero, undefined or negative (no error is raised); when it is strictly
positive, `pct_change` is the claimed formula rounded to two decimals and the
direction comes from the unrounded value by the `|pct| < 2` rule. -/
theorem trend_guarded_by_positive_previous (c : ℚ) (pm : Option ℚ) :
    (pm.getD 0 ≤ 0 → trendCalc c pm = (0, TrendDirection.stable))
  ∧ (∀ p, pm = some p → 0 < p →
      trendCalc c pm = (round2 ((c - p) / p * 100),
        if |(c - p) / p * 100| < 2 then TrendDirection.stable
        else if (c - p) / p * 100 > 0 then TrendDirection.up
        else TrendDirection.down)) := by
  constructor
  · intro hle
    simp only [trendCalc, gt_iff_lt, if_neg (not_lt.mpr hle)]
    norm_num [round2]
  · intro p hp hpos
    subst hp
    simp only [trendCalc, Option.getD_some, gt_iff_lt, if_pos hpos]

/-- C9 witness: both guard branches evaluated at concrete means. -/
theorem trend_guarded_witness :
    trendCalc 10 (some (-10)) = (0, TrendDirection.stable)
  ∧ trendCalc 30 (some 10) = (round2 (((30 : ℚ) - 10) / 10 * 100),
      if |((30 : ℚ) - 10) / 10 * 100| < 2 then TrendDirection.stable
      else if ((30 : ℚ) - 10) / 10 * 100 > 0 then TrendDirection.up
      else TrendDirection.down) :=
  ⟨(trend_guarded_by_positive_previous 10 (some (-10))).1 (by decide),
   (trend_guarded_by_positive_previous 30 (some 10)).2 10 rfl (by decide)⟩

/-- Adding an element to a set never produces the empty set. -/
theorem setAdd_ne_nil (s : List String) (x : String) : setAdd s x ≠ [] := by
  unfold setAdd
  by_cases h : x ∈ s
  · rw [if_pos h]
    intro hnil
    rw [hnil] at h
    cases h
  · rw [if_neg h]
    simp

/-- The added element is a member of the resulting set. -/
theorem mem_setAdd_self (s : List String) (x : String) : x ∈ setAdd s x := by
  unfold setAdd
  by_cases h : x ∈ s
  · rw [if_pos h]; exact h
  · rw [if_neg h]; simp

/-- `mapSet` with a non-empty value preserves the non-empty-entries
invariant. -/
theorem topicMapWF_mapSet {m : List (String × List String)} {k : String}
    {v : List String} (hm : topicMapWF m) (hv : v ≠ []) :
    topicMapWF (mapSet m k v) := by
  unfold topicMapWF mapSet
  intro p hp
  by_cases h : (m.find? (fun q => q.1 = k)).isSome
  · rw [if_pos h] at hp
    obtain ⟨q, hq, hfq⟩ := List.mem_map.mp hp
    by_cases hqk : q.1 = k
    · rw [if_pos hqk] at hfq
      rw [← hfq]
      exact hv
    · rw [if_neg hqk] at hfq
      rw [← hfq]
      exact hm q hq
  · rw [if_neg h] at hp
    rcases List.mem_append.mp hp with h1 | h2
    · exact hm p h1
    · simp only [List.mem_singleton] at h2
      rw [h2]
      exact hv

/-- Deleting an entry preserves the non-empty-entries invariant. -/
theorem topicMapWF_mapDelete {m : List (String × List String)} {k : String}
    (hm : topicMapWF m) : topicMapWF (mapDelete m k) := by
  unfold topicMapWF mapDelete
  intro p hp
  exact hm p (List.mem_filter.mp hp).1

/-- The remove-and-drop-if-empty pattern preserves the non-empty-entries
invariant. -/
theorem topicMapWF_removeFromTopic {m : List (String × List String)}
    (k conn : String) (hm : topicMapWF m) :
    topicMapWF (removeFromTopic m k conn) := by
  unfold removeFromTopic
  cases hg : mapGet m k with
  | none => exact hm
  | some subs =>
    dsimp only
    by_cases hr : setErase subs conn = []
    · rw [if_pos hr]
      exact topicMapWF_mapDelete hm
    · rw [if_neg hr]
      exact topicMapWF_mapSet hm hr

/-- Folding the removal pattern over a zone list preserves the invariant. -/
theorem topicMapWF_foldl_remove (zs : List String) (conn : String)
    (m : List (String × List String)) (hm : topicMapWF m) :
    topicMapWF (zs.foldl (fun acc z => removeFromTopic acc z conn) m) := by
  induction zs generalizing m with
  | nil => exact hm
  | cons z zs ih =>
    exact ih _ (topicMapWF_removeFromTopic z conn hm)

/-- Each registry operation preserves the non-empty-entries invariant of both
subscription maps. -/
theorem registryWF_applyOp (st : WSState) (op : WSOp) (h : registryWF st) :
    registryWF (applyOp st op) := by
  cases op with
  | auth c =>
    exact h
  | subBuilding c b =>
    show registryWF (handleBuildingSubscription st c b)
    unfold handleBuildingSubscription
    cases mapGet st.clients c with
    | none => exact h
    | some client =>
      dsimp only
      by_cases hb : b = ""
      · rw [if_pos hb]
        exact h
      · rw [if_neg hb]
        exact ⟨topicMapWF_mapSet h.1 (setAdd_ne_nil _ _), h.2⟩
  | subZone c z =>
    show registryWF (handleZoneSubscription st c z)
    unfold handleZoneSubscription
    cases mapGet st.clients c with
    | none => exact h
    | some client =>
      dsimp only
      by_cases hz : z = ""
      · rw [if_pos hz]
        exact h
      · rw [if_neg hz]
        exact ⟨h.1, topicMapWF_mapSet h.2 (setAdd_ne_nil _ _)⟩
  | unsubZone c z =>
    show registryWF (handleZoneUnsubscription st c z)
    unfold handleZoneUnsubscription
    cases mapGet st.clients c with
    | none => exact h
    | some client =>
      dsimp only
      by_cases hz : z = ""
      · rw [if_pos hz]
        exact h
      · rw [if_neg hz]
        exact ⟨h.1, topicMapWF_removeFromTopic _ _ h.2⟩
  | disconnect c =>
    show registryWF (handleDisconnection st c)
    unfold handleDisconnection
    cases mapGet st.clients c with
    | none => exact h
    | some client =>
      dsimp only
      refine ⟨?_, topicMapWF_foldl_remove _ _ _ h.2⟩
      cases client.buildingId with
      | none => exact h.1
      | some b => exact topicMapWF_removeFromTopic _ _ h.1

/-- Invariant preservation along any operation sequence. -/
theorem registryWF_foldl (ops : List WSOp) (st : WSState) (h : registryWF st) :
    registryWF (ops.foldl applyOp st) := by
  induction ops generalizing st with
  | nil => exact h
  | cons op ops ih => exact ih _ (registryWF_applyOp st op h)

/-- C10: after any sequence of authenticate, building-subscribe,
zone-subscribe, zone-unsubscribe and disconnect operations from the initial
state, every key present in the building-subscription map and in the
zone-subscription map holds a non-empty set of connection ids. -/
theorem registry_no_empty_topic_entry (ops : List WSOp) :
    registryWF (runOps ops) :=
  registryWF_foldl ops initialWSState
    ⟨fun p hp => absurd hp (List.not_mem_nil p), fun p hp => absurd hp (List.not_mem_nil p)⟩

/-- C10 witness: a concrete subscribe / unsubscribe / disconnect run. -/
theorem registry_no_empty_topic_entry_witness :
    registryWF (runOps [WSOp.auth "c1", WSOp.subBuilding "c1" "B1",
      WSOp.subZone "c1" "Z1", WSOp.unsubZone "c1" "Z1", WSOp.disconnect "c1"]) :=
  registry_no_empty_topic_entry _

/-- The entry-rewriting function of `mapSet` leaves the key predicate of its
own key unchanged. -/
theorem find?_mapSet_fn {α : Type} (k : String) (v : α) (q : String × α) :
    (fun p => decide (p.1 = k)) ((fun p => if p.1 = k then (k, v) else p) q)
      = (fun p => decide (p.1 = k)) q := by
  by_cases hq : q.1 = k <;> simp [hq]

/-- Reading back the key just set returns the new value. -/
theorem mapGet_mapSet_self {α : Type} (m : List (String × α)) (k : String) (v : α) :
    mapGet (mapSet m k v) k = some v := by
  unfold mapGet mapSet
  by_cases h : (m.find? (fun p => p.1 = k)).isSome
  · rw [if_pos h]
    rw [List.find?_map]
    obtain ⟨q, hq⟩ := Option.isSome_iff_exists.mp h
    have hqk : q.1 = k := by
      have := List.find?_some hq
      simpa using this
    have hcomp : ((fun p : String × α => decide (p.1 = k)) ∘ (fun p => if p.1 = k then (k, v) else p))
        = (fun p : String × α => decide (p.1 = k)) := by
      funext q2
      exact find?_mapSet_fn k v q2
    rw [hcomp, hq]
    simp [hqk]
  · rw [if_neg h]
    rw [List.find?_append]
    rw [Option.not_isSome_iff_eq_none.mp h]
    simp

/-- Setting one key leaves every other key's entry unchanged. -/
theorem mapGet_mapSet_ne {α : Type} (m : List (String × α)) (k k2 : String) (v : α)
    (hne : k2 ≠ k) : mapGet (mapSet m k v) k2 = mapGet m k2 := by
  unfold mapGet mapSet
  by_cases h : (m.find? (fun p => p.1 = k)).isSome
  · rw [if_pos h]
    rw [List.find?_map]
    have hcomp : ((fun p : String × α => decide (p.1 = k2)) ∘ (fun p => if p.1 = k then (k, v) else p))
        = (fun p : String × α => decide (p.1 = k2)) := by
      funext q
      by_cases hq : q.1 = k <;> simp [hq]
    rw [hcomp]
    cases hf : m.find? (fun p => decide (p.1 = k2)) with
    | none => rfl
    | some q =>
      have hqk2 : q.1 = k2 := by
        have := List.find?_some hf
        simpa using this
      have hqnek : ¬ q.1 = k := by rw [hqk2]; exact hne
      simp [hqnek]
  · rw [if_neg h]
    rw [List.find?_append]
    cases hf : m.find? (fun p => decide (p.1 = k2)) with
    | none =>
      simp only [hf, Option.none_or]
      have hk : ¬ k = k2 := fun hkk => hne hkk.symm
      simp [hk]
    | some q => simp

/-- C5 counterexample: after subscribing to building B1 and then to building
B2, the connection is still a member of `connectionsForBuilding B1` — the
prior building subscription is not replaced in the subscription map. -/
theorem subscribeBuilding_retains_old_membership :
    "c1" ∈ connectionsForBuilding
        (runOps [WSOp.auth "c1", WSOp.subBuilding "c1" "B1", WSOp.subBuilding "c1" "B2"]) "B1"
  ∧ "c1" ∈ connectionsForBuilding
        (runOps [WSOp.auth "c1", WSOp.subBuilding "c1" "B1", WSOp.subBuilding "c1" "B2"]) "B2"
  ∧ connectionsForBuilding
        (runOps [WSOp.auth "c1", WSOp.subBuilding "c1" "B1", WSOp.subBuilding "c1" "B2"]) "B1"
      = ["c1"] :=
  ⟨by decide, by decide, by decide⟩

/-- C5 as amended: `subscribeBuilding` records the new building as the
client's tracked `buildingId` and adds the connection to the new building's
subscriber set, but removes it from no other building's set — every other
entry of the building-subscription map is unchanged, so a connection that
re-subscribes remains a member of each previously subscribed building's set
until disconnect. -/
theorem subscribeBuilding_adds_without_removal
    (st : WSState) (conn b : String) (client : ClientState)
    (hc : mapGet st.clients conn = some client) (hb : b ≠ "") :
    mapGet (handleBuildingSubscription st conn b).clients conn
      = some { client with buildingId := some b }
  ∧ conn ∈ connectionsForBuilding (handleBuildingSubscription st conn b) b
  ∧ (∀ b2, b2 ≠ b → connectionsForBuilding (handleBuildingSubscription st conn b) b2
      = connectionsForBuilding st b2) := by
  unfold handleBuildingSubscription
  rw [hc]
  dsimp only
  rw [if_neg hb]
  refine ⟨?_, ?_, ?_⟩
  · exact mapGet_mapSet_self _ _ _
  · unfold connectionsForBuilding
    rw [mapGet_mapSet_self]
    exact mem_setAdd_self _ _
  · intro b2 hb2
    unfold connectionsForBuilding
    rw [mapGet_mapSet_ne _ _ _ _ hb2]
    rfl

/-- C5 witness: the membership conjunct on a concrete run. -/
theorem subscribeBuilding_adds_without_removal_witness :
    "c1" ∈ connectionsForBuilding
        (handleBuildingSubscription
          (runOps [WSOp.auth "c1", WSOp.subBuilding "c1" "B1"]) "c1" "B2") "B2" :=
  (subscribeBuilding_adds_without_removal
      (runOps [WSOp.auth "c1", WSOp.subBuilding "c1" "B1"]) "c1" "B2"
      { buildingId := some "B1", subscribedZones := [] }
      (by decide) (by decide)).2.1

/-- C4: ingesting a reading that classifies `critical` for sensor S in zone
Z / building B opens an alert record, but the route emits only a
`sensor_reading` event to the zone room: the zone subscriber, the building
subscriber and the unsubscribed connection each receive zero `alert_new`
events — `broadcastNewAlert` is never invoked by the ingestion path.  And
`broadcastNewAlert` itself, were it called, emits separately to the building
room and the zone room, so a connection subscribed to both would receive the
event twice, not once. -/
theorem critical_ingest_broadcasts_no_alert_event :
    (postSensorData oneSensorDB "B"
        { time := 100, sensor_id := "S", value := 200, quality_score := 100 } 100).2.2
      = Except.ok "critical"
  ∧ (postSensorData oneSensorDB "B"
        { time := 100, sensor_id := "S", value := 200, quality_score := 100 } 100).1.alerts.length = 1
  ∧ connectionsForZone threeConnWS "Z" = ["ca"]
  ∧ connectionsForBuilding threeConnWS "B" = ["cb"]
  ∧ deliveredCount threeConnWS (postSensorData oneSensorDB "B"
        { time := 100, sensor_id := "S", value := 200, quality_score := 100 } 100).2.1
      "ca" "alert_new" = 0
  ∧ deliveredCount threeConnWS (postSensorData oneSensorDB "B"
        { time := 100, sensor_id := "S", value := 200, quality_score := 100 } 100).2.1
      "cb" "alert_new" = 0
  ∧ deliveredCount threeConnWS (postSensorData oneSensorDB "B"
        { time := 100, sensor_id := "S", value := 200, quality_score := 100 } 100).2.1
      "cc" "alert_new" = 0
  ∧ deliveredCount threeConnWS (postSensorData oneSensorDB "B"
        { time := 100, sensor_id := "S", value := 200, quality_score := 100 } 100).2.1
      "ca" "sensor_reading" = 1
  ∧ deliveredCount dualSubWS (broadcastNewAlertEmits "B" "Z") "cd" "alert_new" = 2 :=
  ⟨by decide, by decide, by decide, by decide, by decide, by decide, by decide, by decide, by decide⟩

end AirHarmony
